import Mathlib

/-!
Shallow embedding of the badminton booking system's procedural core
(the MySQL schema, functions, stored procedures and triggers in
`badminton_booking_system(all).sql` / `minimal_schema.sql`, plus the
Express controllers that call them).

Modelling conventions:
* `TIME` columns are minutes since midnight (`Nat`); `DATE` columns are
  day numbers (`Nat`); `DECIMAL(10,2)` money is `Int`.
* `CURDATE()` is an explicit `today : Nat` parameter to the operations
  that consult it.
* Each stored procedure is a pure function on a `DBState`; a SQL
  `SIGNAL`, a duplicate-key / constraint error, or a `SELECT 'error'`
  result row is an `Except.error` carrying a distinct constructor per
  message, and rollback is modelled by the state being discarded on
  error (`applyOp` keeps the pre-state).
* `BEFORE INSERT` / `AFTER UPDATE` triggers are inlined at the point the
  corresponding `INSERT` / `UPDATE` executes, in the trigger's own check
  order.
-/

inductive CourtStatus
  | active
  | maintenance
  | inactive
deriving DecidableEq

inductive SlotStatus
  | active
  | inactive
deriving DecidableEq

inductive PaymentStatus
  | paid
  | unpaid
  | partialPaid
deriving DecidableEq

inductive BookingStatus
  | confirmed
  | cancelled
  | completed
deriving DecidableEq

structure Court where
  court_id : Nat
  court_name : String
  description : Option String
  price_per_session : Int
  status : CourtStatus
deriving DecidableEq

structure TimeSlot where
  slot_id : Nat
  start_time : Nat
  end_time : Nat
  slot_name : String
  status : SlotStatus
deriving DecidableEq

structure Booking where
  booking_id : Nat
  court_id : Nat
  slot_id : Nat
  booking_date : Nat
  customer_name : String
  customer_phone : Option String
  total_amount : Int
  payment_status : PaymentStatus
  booking_status : BookingStatus
  notes : Option String
  created_by : Nat
deriving DecidableEq

/-- The database state: the four tables (admins reduced to their ids,
which is all the core consults them for besides display names) and the
three `AUTO_INCREMENT` counters. -/
structure DBState where
  admins : List Nat
  courts : List Court
  time_slots : List TimeSlot
  bookings : List Booking
  next_court_id : Nat
  next_slot_id : Nat
  next_booking_id : Nat
deriving DecidableEq

/-- Errors: one constructor per distinct SQL `SIGNAL` message,
`SELECT 'error'` message, or storage-layer constraint violation. -/
inductive SqlErr
  | slotTaken          -- 'Slot sudah dibooking untuk tanggal tersebut'
  | pastDate           -- 'Tanggal booking tidak boleh tanggal lampau'
  | courtInactive      -- 'Lapangan tidak aktif'
  | slotInactive       -- 'Slot waktu tidak aktif'
  | blankCustomer      -- 'Nama customer harus diisi'
  | amountNull         -- NOT NULL violation on total_amount (court row missing)
  | fkViolation        -- FOREIGN KEY violation on court_id/slot_id/created_by
  | dupBookingKey      -- UNIQUE KEY unique_booking (court_id, slot_id, booking_date)
  | slotOverlap        -- 'Time slot overlaps with existing active slot'
  | invalidRange       -- 'Start time must be before end time'
  | dupSlotTime        -- UNIQUE KEY unique_time_slot (start_time, end_time)
  | slotNotFound       -- 'Time slot not found'
  | slotInUse          -- 'Cannot delete time slot with existing bookings...'
  | slotFutureBooked   -- 'Cannot modify time slot with future active bookings'
  | courtNotFound      -- 'Court not found'
  | dupCourtName       -- UNIQUE on courts.court_name
  | courtInUse         -- 'Cannot delete court with active bookings'
  | bookingNotFound    -- 'Booking tidak ditemukan'
  | terminalState      -- 'Booking yang sudah dibatalkan tidak bisa diubah statusnya'
deriving DecidableEq

/-- MySQL `TRIM(str)`: strips leading and trailing space characters. -/
def sqlTrim (s : String) : String :=
  String.mk (((s.data.dropWhile (fun c => c = ' ')).reverse.dropWhile
    (fun c => c = ' ')).reverse)

def exceptOk : Except SqlErr α → Bool
  | .ok _ => true
  | .error _ => false

def findCourt (s : DBState) (cid : Nat) : Option Court :=
  s.courts.find? (fun c => decide (c.court_id = cid))

def findSlot (s : DBState) (sid : Nat) : Option TimeSlot :=
  s.time_slots.find? (fun w => decide (w.slot_id = sid))

def findBooking (s : DBState) (bid : Nat) : Option Booking :=
  s.bookings.find? (fun b => decide (b.booking_id = bid))

/-- Function `is_slot_available`: no non-cancelled booking for the
(court, slot, date) triple. -/
def is_slot_available (s : DBState) (pc ps d : Nat) : Bool :=
  (s.bookings.filter (fun b =>
      decide (b.court_id = pc) && decide (b.slot_id = ps) &&
      decide (b.booking_date = d) &&
      decide (b.booking_status ≠ BookingStatus.cancelled))).length = 0

/-- Function `get_available_slots_count`: active slot count minus the
count of non-cancelled bookings for the court and date (over all slots). -/
def get_available_slots_count (s : DBState) (pc d : Nat) : Int :=
  ((s.time_slots.filter (fun w => decide (w.status = SlotStatus.active))).length : Int) -
  ((s.bookings.filter (fun b =>
      decide (b.court_id = pc) && decide (b.booking_date = d) &&
      decide (b.booking_status ≠ BookingStatus.cancelled))).length : Int)

def ordInsert (le : α → α → Bool) (x : α) : List α → List α
  | [] => [x]
  | y :: ys => if le x y then x :: y :: ys else y :: ordInsert le x ys

def isort (le : α → α → Bool) : List α → List α
  | [] => []
  | x :: xs => ordInsert le x (isort le xs)

def sortedB (le : α → α → Bool) : List α → Bool
  | [] => true
  | [_] => true
  | a :: b :: t => le a b && sortedB le (b :: t)

def slotStartLE (a b : TimeSlot × Bool) : Bool :=
  decide (a.1.start_time ≤ b.1.start_time)

/-- Procedure `sp_get_available_time_slots`: every active slot,
annotated with `is_slot_available`, ordered by start time ascending. -/
def sp_get_available_time_slots (s : DBState) (pc d : Nat) :
    List (TimeSlot × Bool) :=
  isort slotStartLE
    ((s.time_slots.filter (fun w => decide (w.status = SlotStatus.active))).map
      (fun w => (w, is_slot_available s pc w.slot_id d)))

/-- The trigger's amount default: `IF NEW.total_amount = 0.00 THEN SET
NEW.total_amount = (SELECT price_per_session FROM courts WHERE court_id
= NEW.court_id)`; `none` is the NULL that a missing court row yields. -/
def triggerAmount (s : DBState) (pc : Nat) (v_price : Int) : Option Int :=
  if v_price = 0
  then (findCourt s pc).map (fun c => c.price_per_session)
  else some v_price

/-- Procedure `sp_create_booking` plus the `BEFORE INSERT` trigger
`tr_validate_booking_insert` and the storage constraints on `bookings`.

Note on the procedure's dead check: `v_price` is declared
`DECIMAL(10,2) DEFAULT 0.00`; a `SELECT ... INTO` that matches no row
leaves the variable unchanged (warning 1329), so `v_price IS NULL` can
never hold and the 'Lapangan tidak ditemukan atau tidak aktif' signal is
unreachable. We therefore embed `v_price` as an `Int` defaulting to 0
and omit that branch; an inactive court is instead caught by the
trigger's court-status check (or, for an absent court, by the FK /
NOT-NULL constraints at insert). -/
def sp_create_booking (today : Nat) (s : DBState) (pc ps d : Nat)
    (nm : String) (ph : Option String) (pay : PaymentStatus)
    (nt : Option String) (adm : Nat) : Except SqlErr (Nat × DBState) :=
  -- fast-path availability check
  if is_slot_available s pc ps d = false then .error .slotTaken
  else
    -- SELECT price_per_session INTO v_price ... WHERE status = 'active'
    let v_price : Int :=
      match s.courts.find? (fun c =>
          decide (c.court_id = pc) && decide (c.status = CourtStatus.active)) with
      | some c => c.price_per_session
      | none => 0
    -- trigger tr_validate_booking_insert, in its own order:
    if d < today then .error .pastDate
    else if (match findCourt s pc with
             | some c => decide (c.status ≠ CourtStatus.active)
             | none => false) = true then .error .courtInactive
    else if (match findSlot s ps with
             | some w => decide (w.status ≠ SlotStatus.active)
             | none => false) = true then .error .slotInactive
    else if sqlTrim nm = "" then .error .blankCustomer
    else
      -- trigger default amount (NULL here would violate NOT NULL)
      match triggerAmount s pc v_price with
      | none => .error .amountNull
      | some amt =>
        -- FOREIGN KEY checks on court_id, slot_id, created_by
        if s.courts.any (fun c => decide (c.court_id = pc)) = false then .error .fkViolation
        else if s.time_slots.any (fun w => decide (w.slot_id = ps)) = false then .error .fkViolation
        else if s.admins.any (fun a => decide (a = adm)) = false then .error .fkViolation
        -- UNIQUE KEY unique_booking (court_id, slot_id, booking_date):
        -- counts every booking, cancelled ones included
        else if s.bookings.any (fun b =>
            decide (b.court_id = pc) && decide (b.slot_id = ps) &&
            decide (b.booking_date = d)) = true then .error .dupBookingKey
        else
          let nb : Booking :=
            { booking_id := s.next_booking_id, court_id := pc, slot_id := ps,
              booking_date := d, customer_name := nm, customer_phone := ph,
              total_amount := amt, payment_status := pay,
              booking_status := BookingStatus.confirmed, notes := nt,
              created_by := adm }
          .ok (s.next_booking_id,
            { s with bookings := s.bookings ++ [nb],
                     next_booking_id := s.next_booking_id + 1 })

def applyStatusRow (pay? : Option PaymentStatus) (book? : Option BookingStatus)
    (b : Booking) : Booking :=
  { b with payment_status := pay?.getD b.payment_status,
           booking_status := book?.getD b.booking_status }

/-- Procedure `sp_update_booking_status` plus the `AFTER UPDATE` trigger
`tr_booking_status_update`, which signals only when a row goes from
`booking_status = 'cancelled'` to a different booking status (rolling
the update back). `COALESCE` keeps an unsupplied status unchanged. -/
def sp_update_booking_status (s : DBState) (bid : Nat)
    (pay? : Option PaymentStatus) (book? : Option BookingStatus) :
    Except SqlErr DBState :=
  if s.bookings.any (fun b => decide (b.booking_id = bid)) = false then
    .error .bookingNotFound
  else if s.bookings.any (fun b =>
      decide (b.booking_id = bid) &&
      decide (b.booking_status = BookingStatus.cancelled) &&
      decide (book?.getD b.booking_status ≠ BookingStatus.cancelled)) = true then
    .error .terminalState
  else
    .ok { s with bookings := s.bookings.map (fun b =>
            if b.booking_id = bid then applyStatusRow pay? book? b else b) }

/-- Procedure `sp_update_booking_details`: `COALESCE` partial update of
customer name / phone / notes; no status restriction. -/
def sp_update_booking_details (s : DBState) (bid : Nat)
    (nm? ph? nt? : Option String) : Except SqlErr DBState :=
  if s.bookings.any (fun b => decide (b.booking_id = bid)) = false then
    .error .bookingNotFound
  else
    .ok { s with bookings := s.bookings.map (fun b =>
            if b.booking_id = bid then
              { b with customer_name := nm?.getD b.customer_name,
                       customer_phone := match ph? with
                         | some p => some p
                         | none => b.customer_phone,
                       notes := match nt? with
                         | some n => some n
                         | none => b.notes }
            else b) }

/-- Procedure `sp_cancel_booking`: sets `booking_status = 'cancelled'`.
The `AFTER UPDATE` trigger never signals here (the new status is
`cancelled`), so re-cancelling succeeds as a plain update. -/
def sp_cancel_booking (s : DBState) (bid : Nat) : Except SqlErr DBState :=
  if s.bookings.any (fun b => decide (b.booking_id = bid)) = false then
    .error .bookingNotFound
  else
    .ok { s with bookings := s.bookings.map (fun b =>
            if b.booking_id = bid then
              { b with booking_status := BookingStatus.cancelled }
            else b) }

/-- The SQL overlap condition used by `sp_create_time_slot` and
`sp_update_time_slot`: new start inside the slot, new end inside the
slot, or the new interval containing the slot. -/
def overlapTest (ns ne : Nat) (w : TimeSlot) : Bool :=
  (decide (ns ≥ w.start_time) && decide (ns < w.end_time)) ||
  (decide (ne > w.start_time) && decide (ne ≤ w.end_time)) ||
  (decide (ns ≤ w.start_time) && decide (ne ≥ w.end_time))

/-- Procedure `sp_create_time_slot`: overlap check against active slots
(run before the range check, and regardless of the new slot's status),
then start/end ordering, then the insert, where the `unique_time_slot`
key on (start_time, end_time) can still reject an exact duplicate of an
inactive slot. -/
def sp_create_time_slot (s : DBState) (st en : Nat) (nm : String)
    (stat? : Option SlotStatus) : Except SqlErr (Nat × DBState) :=
  if s.time_slots.any (fun w =>
      decide (w.status = SlotStatus.active) && overlapTest st en w) = true then
    .error .slotOverlap
  else if st ≥ en then .error .invalidRange
  else if s.time_slots.any (fun w =>
      decide (w.start_time = st) && decide (w.end_time = en)) = true then
    .error .dupSlotTime
  else
    let w : TimeSlot :=
      { slot_id := s.next_slot_id, start_time := st, end_time := en,
        slot_name := nm, status := stat?.getD SlotStatus.active }
    .ok (s.next_slot_id,
      { s with time_slots := s.time_slots ++ [w],
               next_slot_id := s.next_slot_id + 1 })

def updateSlotRowFull (sid : Nat) (st? en? : Option Nat) (nm? : Option String)
    (stat? : Option SlotStatus) (w : TimeSlot) : TimeSlot :=
  if w.slot_id = sid then
    { w with start_time := st?.getD w.start_time,
             end_time := en?.getD w.end_time,
             slot_name := nm?.getD w.slot_name,
             status := stat?.getD w.status }
  else w

def updateSlotRowNameStatus (sid : Nat) (nm? : Option String)
    (stat? : Option SlotStatus) (w : TimeSlot) : TimeSlot :=
  if w.slot_id = sid then
    { w with slot_name := nm?.getD w.slot_name,
             status := stat?.getD w.status }
  else w

/-- Non-cancelled bookings of the slot dated today or later — the
"future active bookings" that block time/deactivation changes. -/
def futureActiveBookingCount (today : Nat) (s : DBState) (sid : Nat) : Nat :=
  (s.bookings.filter (fun b =>
      decide (b.slot_id = sid) &&
      decide (b.booking_status ≠ BookingStatus.cancelled) &&
      decide (b.booking_date ≥ today))).length

/-- Procedure `sp_update_time_slot`. Time fields and the overlap
re-check apply only when BOTH `p_start_time` and `p_end_time` are
supplied; otherwise the `ELSE` branch updates only name and status
(with no overlap check, even when it activates the slot). -/
def sp_update_time_slot (today : Nat) (s : DBState) (sid : Nat)
    (st? en? : Option Nat) (nm? : Option String) (stat? : Option SlotStatus) :
    Except SqlErr DBState :=
  if s.time_slots.any (fun w => decide (w.slot_id = sid)) = false then
    .error .slotNotFound
  else if (st?.isSome || en?.isSome || decide (stat? = some SlotStatus.inactive)) &&
      decide (futureActiveBookingCount today s sid > 0) then
    .error .slotFutureBooked
  else
    match st?, en? with
    | some a, some b =>
      if a ≥ b then .error .invalidRange
      else if s.time_slots.any (fun w =>
          decide (w.slot_id ≠ sid) && decide (w.status = SlotStatus.active) &&
          overlapTest a b w) = true then
        .error .slotOverlap
      else if s.time_slots.any (fun w =>
          decide (w.slot_id ≠ sid) && decide (w.start_time = a) &&
          decide (w.end_time = b)) = true then
        .error .dupSlotTime
      else
        .ok { s with time_slots :=
                s.time_slots.map (updateSlotRowFull sid st? en? nm? stat?) }
    | _, _ =>
      .ok { s with time_slots :=
              s.time_slots.map (updateSlotRowNameStatus sid nm? stat?) }

/-- Procedure `sp_delete_time_slot`: blocked by ANY booking referencing
the slot, regardless of status. -/
def sp_delete_time_slot (s : DBState) (sid : Nat) : Except SqlErr DBState :=
  if s.time_slots.any (fun w => decide (w.slot_id = sid)) = false then
    .error .slotNotFound
  else if (s.bookings.filter (fun b => decide (b.slot_id = sid))).length > 0 then
    .error .slotInUse
  else
    .ok { s with time_slots := s.time_slots.filter (fun w => !decide (w.slot_id = sid)) }

/-- Procedure `sp_create_court`; the `UNIQUE` key on `court_name`
rejects a duplicate name at insert. -/
def sp_create_court (s : DBState) (nm : String) (desc : Option String)
    (price : Int) (stat? : Option CourtStatus) : Except SqlErr (Nat × DBState) :=
  if s.courts.any (fun c => decide (c.court_name = nm)) = true then
    .error .dupCourtName
  else
    let c : Court :=
      { court_id := s.next_court_id, court_name := nm, description := desc,
        price_per_session := price, status := stat?.getD CourtStatus.active }
    .ok (s.next_court_id,
      { s with courts := s.courts ++ [c],
               next_court_id := s.next_court_id + 1 })

/-- Procedure `sp_update_court`: `COALESCE` partial update; renaming to
another court's name violates the `UNIQUE` key at update time. -/
def sp_update_court (s : DBState) (cid : Nat) (nm? desc? : Option String)
    (price? : Option Int) (stat? : Option CourtStatus) : Except SqlErr DBState :=
  if s.courts.any (fun c => decide (c.court_id = cid)) = false then
    .error .courtNotFound
  else if (match nm? with
           | some n => s.courts.any (fun c =>
               decide (c.court_id ≠ cid) && decide (c.court_name = n))
           | none => false) = true then
    .error .dupCourtName
  else
    .ok { s with courts := s.courts.map (fun c =>
            if c.court_id = cid then
              { c with court_name := nm?.getD c.court_name,
                       description := match desc? with
                         | some dd => some dd
                         | none => c.description,
                       price_per_session := price?.getD c.price_per_session,
                       status := stat?.getD c.status }
            else c) }

/-- Procedure `sp_delete_court`: blocked only while a NON-cancelled
booking references the court; on success the `ON DELETE CASCADE` on
`bookings.court_id` also removes every booking of the court. -/
def sp_delete_court (s : DBState) (cid : Nat) : Except SqlErr DBState :=
  if s.courts.any (fun c => decide (c.court_id = cid)) = false then
    .error .courtNotFound
  else if (s.bookings.filter (fun b =>
      decide (b.court_id = cid) &&
      decide (b.booking_status ≠ BookingStatus.cancelled))).length > 0 then
    .error .courtInUse
  else
    .ok { s with courts := s.courts.filter (fun c => !decide (c.court_id = cid)),
                 bookings := s.bookings.filter (fun b => !decide (b.court_id = cid)) }

/-- The optional AND-combined filters of `sp_get_booking_history`. -/
def historyFilter (cid? fromD? toD? : Option Nat) (b : Booking) : Bool :=
  (match cid? with
   | some c => decide (b.court_id = c)
   | none => true) &&
  (match fromD? with
   | some f => decide (b.booking_date ≥ f)
   | none => true) &&
  (match toD? with
   | some t => decide (b.booking_date ≤ t)
   | none => true)

/-- The history query's three inner JOINs: a booking row survives only
if its court, slot and creating admin exist; the joined slot supplies
the `start_time` used for ordering. -/
def joinRow (s : DBState) (b : Booking) : Option (Booking × TimeSlot) :=
  match findCourt s b.court_id, findSlot s b.slot_id with
  | some _, some ts =>
    if s.admins.any (fun a => decide (a = b.created_by)) then some (b, ts) else none
  | _, _ => none

/-- `ORDER BY b.booking_date DESC, ts.start_time ASC` as a Boolean
"comes no later than" relation on joined rows. -/
def histLE (x y : Booking × TimeSlot) : Bool :=
  decide (y.1.booking_date < x.1.booking_date) ||
  (decide (x.1.booking_date = y.1.booking_date) &&
   decide (x.2.start_time ≤ y.2.start_time))

/-- Procedure `sp_get_booking_history`: join, filter, order, and apply
`LIMIT`/`OFFSET` only when `p_limit` is non-NULL (`OFFSET` only when
additionally `p_offset` is non-NULL). -/
def sp_get_booking_history (s : DBState) (cid? fromD? toD? : Option Nat)
    (limit? offset? : Option Nat) : List (Booking × TimeSlot) :=
  let rows := (s.bookings.filter (historyFilter cid? fromD? toD?)).filterMap (joinRow s)
  let sorted := isort histLE rows
  match limit? with
  | none => sorted
  | some n =>
    match offset? with
    | none => sorted.take n
    | some o => (sorted.drop o).take n

/-- Controller `getBookingHistory` (`timeSlotController.js`): when the
caller omits `limit` / `offset` it substitutes 50 and 0 before calling
the procedure. -/
def getBookingHistory (s : DBState) (cid? fromD? toD? : Option Nat)
    (limit? offset? : Option Nat) : List (Booking × TimeSlot) :=
  sp_get_booking_history s cid? fromD? toD? (some (limit?.getD 50))
    (some (offset?.getD 0))

/-- One call into the core (every mutating operation the presentation
layer can reach). -/
inductive Op
  | createCourt (nm : String) (desc : Option String) (price : Int)
      (stat? : Option CourtStatus)
  | updateCourt (cid : Nat) (nm? desc? : Option String) (price? : Option Int)
      (stat? : Option CourtStatus)
  | deleteCourt (cid : Nat)
  | createSlot (st en : Nat) (nm : String) (stat? : Option SlotStatus)
  | updateSlot (sid : Nat) (st? en? : Option Nat) (nm? : Option String)
      (stat? : Option SlotStatus)
  | deleteSlot (sid : Nat)
  | createBooking (pc ps d : Nat) (nm : String) (ph : Option String)
      (pay : PaymentStatus) (nt : Option String) (adm : Nat)
  | updateBookingStatus (bid : Nat) (pay? : Option PaymentStatus)
      (book? : Option BookingStatus)
  | updateBookingDetails (bid : Nat) (nm? ph? nt? : Option String)
  | cancelBooking (bid : Nat)
deriving DecidableEq

def opRun (today : Nat) (op : Op) (s : DBState) : Except SqlErr DBState :=
  match op with
  | .createCourt nm desc price stat? =>
      (sp_create_court s nm desc price stat?).map (fun r => r.2)
  | .updateCourt cid nm? desc? price? stat? =>
      sp_update_court s cid nm? desc? price? stat?
  | .deleteCourt cid => sp_delete_court s cid
  | .createSlot st en nm stat? =>
      (sp_create_time_slot s st en nm stat?).map (fun r => r.2)
  | .updateSlot sid st? en? nm? stat? =>
      sp_update_time_slot today s sid st? en? nm? stat?
  | .deleteSlot sid => sp_delete_time_slot s sid
  | .createBooking pc ps d nm ph pay nt adm =>
      (sp_create_booking today s pc ps d nm ph pay nt adm).map (fun r => r.2)
  | .updateBookingStatus bid pay? book? =>
      sp_update_booking_status s bid pay? book?
  | .updateBookingDetails bid nm? ph? nt? =>
      sp_update_booking_details s bid nm? ph? nt?
  | .cancelBooking bid => sp_cancel_booking s bid

/-- A failed operation rolls back: the state is unchanged. -/
def applyOp (today : Nat) (op : Op) (s : DBState) : DBState :=
  match opRun today op s with
  | .ok s2 => s2
  | .error _ => s

/-- The database created by the setup script: the two sample admins and
empty `courts` / `time_slots` / `bookings` tables. -/
def initState : DBState :=
  { admins := [1, 2], courts := [], time_slots := [], bookings := [],
    next_court_id := 1, next_slot_id := 1, next_booking_id := 1 }

def runTrace (s : DBState) : List (Nat × Op) → DBState
  | [] => s
  | (t, op) :: rest => runTrace (applyOp t op s) rest

/-- `CURDATE()` never decreases along a trace. -/
def todaysMono : Nat → List (Nat × Op) → Bool
  | _, [] => true
  | prev, (t, _) :: rest => decide (prev ≤ t) && todaysMono t rest

/-- A state is reachable iff some time-monotone trace of operations
produces it from the freshly set-up database. -/
def Reachable (s : DBState) : Prop :=
  ∃ tr : List (Nat × Op), todaysMono 0 tr = true ∧ runTrace initState tr = s

def pairwiseB (r : α → α → Bool) : List α → Bool
  | [] => true
  | x :: xs => xs.all (r x) && pairwiseB r xs

/-- The storage-layer PRIMARY KEY on `bookings.booking_id`. -/
def bookingIdsUnique (s : DBState) : Prop :=
  pairwiseB (fun a b => decide (a.booking_id ≠ b.booking_id)) s.bookings = true

/-- The storage-layer UNIQUE KEY `unique_booking` on
(court_id, slot_id, booking_date): no two rows share the triple. -/
def bookingKeyUnique (s : DBState) : Prop :=
  pairwiseB (fun a b => !(decide (a.court_id = b.court_id) &&
    decide (a.slot_id = b.slot_id) &&
    decide (a.booking_date = b.booking_date))) s.bookings = true

lemma pairwiseB_rel_or_eq {r : α → α → Bool} {l : List α}
    (hsym : ∀ a b, r a b = r b a) (h : pairwiseB r l = true)
    {a b : α} (ha : a ∈ l) (hb : b ∈ l) : r a b = true ∨ a = b := by
  induction l with
  | nil => cases ha
  | cons x xs ih =>
    simp only [pairwiseB, Bool.and_eq_true, List.all_eq_true] at h
    rcases List.mem_cons.mp ha with rfl | ha2
    · rcases List.mem_cons.mp hb with rfl | hb2
      · exact Or.inr rfl
      · exact Or.inl (h.1 b hb2)
    · rcases List.mem_cons.mp hb with rfl | hb2
      · exact Or.inl ((hsym a b).symm ▸ (hsym b a ▸ h.1 a ha2))
      · exact ih h.2 ha2 hb2

lemma mem_ordInsert {le : α → α → Bool} {x y : α} {l : List α} :
    y ∈ ordInsert le x l ↔ y = x ∨ y ∈ l := by
  induction l with
  | nil => simp [ordInsert]
  | cons a t ih =>
    by_cases h : le x a = true
    · simp [ordInsert, h, List.mem_cons]
    · simp only [ordInsert, h, Bool.false_eq_true, if_false, List.mem_cons, ih]
      tauto

lemma mem_isort {le : α → α → Bool} {y : α} {l : List α} :
    y ∈ isort le l ↔ y ∈ l := by
  induction l with
  | nil => simp [isort]
  | cons a t ih => simp [isort, mem_ordInsert, ih]

lemma sortedB_ordInsert {le : α → α → Bool}
    (htot : ∀ a b, le a b = true ∨ le b a = true) {x : α} {l : List α}
    (h : sortedB le l = true) : sortedB le (ordInsert le x l) = true := by
  induction l with
  | nil => simp [ordInsert, sortedB]
  | cons a t ih =>
    by_cases hxa : le x a = true
    · simpa [ordInsert, hxa, sortedB] using h
    · have hax : le a x = true := (htot x a).resolve_left hxa
      cases t with
      | nil => simp [ordInsert, hxa, sortedB, hax]
      | cons b t2 =>
        simp only [sortedB, Bool.and_eq_true] at h
        have hrest := ih h.2
        by_cases hxb : le x b = true
        · simp only [ordInsert, hxa, Bool.false_eq_true, if_false, hxb, if_true]
          simp [sortedB, hax, hxb, h.2]
        · simp only [ordInsert, hxa, Bool.false_eq_true, if_false, hxb] at hrest ⊢
          simp only [sortedB, Bool.and_eq_true]
          exact ⟨h.1, hrest⟩

lemma sortedB_isort {le : α → α → Bool}
    (htot : ∀ a b, le a b = true ∨ le b a = true) (l : List α) :
    sortedB le (isort le l) = true := by
  induction l with
  | nil => simp [isort, sortedB]
  | cons a t ih => exact sortedB_ordInsert htot ih

lemma find?_of_stronger {p q : α → Bool} {l : List α} {c : α}
    (himp : ∀ x, p x = true → q x = true)
    (hq : l.find? q = some c) (hp : p c = true) : l.find? p = some c := by
  induction l with
  | nil => simp at hq
  | cons a t ih =>
    by_cases hqa : q a = true
    · rw [List.find?_cons_of_pos _ hqa] at hq
      injection hq with h1
      subst h1
      rw [List.find?_cons_of_pos _ hp]
    · have hpa : p a ≠ true := fun h => hqa (himp a h)
      rw [List.find?_cons_of_neg _ hqa] at hq
      rw [List.find?_cons_of_neg _ (by simpa using hpa)]
      exact ih hq

lemma sp_create_court_bookings {s : DBState} {nm desc price stat? r}
    (h : sp_create_court s nm desc price stat? = .ok r) :
    r.2.bookings = s.bookings := by
  unfold sp_create_court at h
  split at h
  · cases h
  · injection h with h1
    subst h1
    rfl

lemma sp_update_court_bookings {s : DBState} {cid nm? desc? price? stat? s2}
    (h : sp_update_court s cid nm? desc? price? stat? = .ok s2) :
    s2.bookings = s.bookings := by
  unfold sp_update_court at h
  split at h
  · cases h
  · split at h
    · cases h
    · injection h with h1
      subst h1
      rfl

lemma sp_create_time_slot_bookings {s : DBState} {st en nm stat? r}
    (h : sp_create_time_slot s st en nm stat? = .ok r) :
    r.2.bookings = s.bookings := by
  unfold sp_create_time_slot at h
  split at h
  · cases h
  · split at h
    · cases h
    · split at h
      · cases h
      · injection h with h1
        subst h1
        rfl

lemma sp_update_time_slot_bookings {today : Nat} {s : DBState}
    {sid st? en? nm? stat? s2}
    (h : sp_update_time_slot today s sid st? en? nm? stat? = .ok s2) :
    s2.bookings = s.bookings := by
  unfold sp_update_time_slot at h
  split at h
  · cases h
  · split at h
    · cases h
    · split at h
      · split at h
        · cases h
        · split at h
          · cases h
          · split at h
            · cases h
            · injection h with h1
              subst h1
              rfl
      · injection h with h1
        subst h1
        rfl

lemma sp_delete_time_slot_bookings {s : DBState} {sid s2}
    (h : sp_delete_time_slot s sid = .ok s2) :
    s2.bookings = s.bookings := by
  unfold sp_delete_time_slot at h
  split at h
  · cases h
  · split at h
    · cases h
    · injection h with h1
      subst h1
      rfl

lemma sp_create_booking_bookings {today : Nat} {s : DBState}
    {pc ps d nm ph pay nt adm r}
    (h : sp_create_booking today s pc ps d nm ph pay nt adm = .ok r) :
    ∃ nb, r.2.bookings = s.bookings ++ [nb] := by
  unfold sp_create_booking at h
  dsimp only at h
  repeat' split at h
  all_goals try cases h
  all_goals exact ⟨_, rfl⟩

lemma sp_update_booking_status_bookings {s : DBState} {bid pay? book? s2}
    (h : sp_update_booking_status s bid pay? book? = .ok s2) :
    s2.bookings = s.bookings.map (fun b =>
      if b.booking_id = bid then applyStatusRow pay? book? b else b) := by
  unfold sp_update_booking_status at h
  split at h
  · cases h
  · split at h
    · cases h
    · injection h with h1
      subst h1
      rfl

lemma sp_update_booking_details_bookings {s : DBState} {bid nm? ph? nt? s2}
    (h : sp_update_booking_details s bid nm? ph? nt? = .ok s2) :
    ∃ f : Booking → Booking, (∀ b, (f b).booking_id = b.booking_id) ∧
      s2.bookings = s.bookings.map f := by
  unfold sp_update_booking_details at h
  split at h
  · cases h
  · injection h with h1
    subst h1
    refine ⟨_, fun b => ?_, rfl⟩
    by_cases hb : b.booking_id = bid <;> simp [hb]

lemma sp_cancel_booking_bookings {s : DBState} {bid s2}
    (h : sp_cancel_booking s bid = .ok s2) :
    s2.bookings = s.bookings.map (fun b =>
      if b.booking_id = bid then { b with booking_status := BookingStatus.cancelled }
      else b) := by
  unfold sp_cancel_booking at h
  split at h
  · cases h
  · injection h with h1
    subst h1
    rfl

lemma sp_delete_court_bookings {s : DBState} {cid s2}
    (h : sp_delete_court s cid = .ok s2) :
    s2.bookings = s.bookings.filter (fun b => !decide (b.court_id = cid)) ∧
      ∀ b ∈ s.bookings, b.court_id = cid →
        b.booking_status = BookingStatus.cancelled := by
  unfold sp_delete_court at h
  split at h
  · cases h
  · rename_i hcnt
    split at h
    · cases h
    · rename_i hcnt2
      injection h with h1
      subst h1
      refine ⟨rfl, fun b hb hbc => ?_⟩
      by_contra hne
      have hmem : b ∈ s.bookings.filter (fun b =>
          decide (b.court_id = cid) &&
          decide (b.booking_status ≠ BookingStatus.cancelled)) := by
        rw [List.mem_filter]
        exact ⟨hb, by simp [hbc, hne]⟩
      have : 0 < (s.bookings.filter (fun b =>
          decide (b.court_id = cid) &&
          decide (b.booking_status ≠ BookingStatus.cancelled))).length :=
        List.length_pos.mpr (List.ne_nil_of_mem hmem)
      omega

/-- The reachable state used against C5: an active court and slot, one
booking which is then cancelled. -/
def c5State : DBState :=
  runTrace initState
    [(5, Op.createCourt "C1" none 100 (some CourtStatus.active)),
     (5, Op.createSlot 480 600 "S1" (some SlotStatus.active)),
     (5, Op.createBooking 1 1 5 "Alice" none PaymentStatus.unpaid none 1),
     (5, Op.cancelBooking 1)]

/-- C5 counterexample: the claim "every reservation row that existed
before the operation still exists afterwards" is false. In the
reachable state `c5State` the (cancelled) booking row 1 exists, yet
`sp_delete_court 1` succeeds — the only booking referencing the court
is cancelled — and the `ON DELETE CASCADE` on `bookings.court_id`
physically deletes that booking row. -/
theorem c5_counterexample :
    Reachable c5State ∧
    (∃ b ∈ c5State.bookings, b.booking_id = 1) ∧
    exceptOk (sp_delete_court c5State 1) = true ∧
    (applyOp 5 (Op.deleteCourt 1) c5State).bookings = [] := by
  refine ⟨⟨_, by decide, rfl⟩, ?_, ?_, ?_⟩ <;> decide

/-- C5 (amended): no Reservation-Ledger operation ever physically
deletes a reservation row, and neither do the Slot Registry operations
(window deletion is refused while any booking references the window).
The single physical removal path is Resource Registry deletion: a
successful `sp_delete_court` cascade-deletes the bookings of that
court, and every booking it removes is necessarily cancelled (the
procedure refuses while a non-cancelled booking references the court).
So for every operation, each pre-existing booking row either survives
(by id) or the operation was `deleteCourt` of its court and the row was
cancelled. -/
theorem c5_bookings_removed_only_by_court_cascade
    (today : Nat) (op : Op) (s : DBState) (b : Booking) (hb : b ∈ s.bookings) :
    (∃ b2 ∈ (applyOp today op s).bookings, b2.booking_id = b.booking_id) ∨
    (op = Op.deleteCourt b.court_id ∧
     b.booking_status = BookingStatus.cancelled) := by
  unfold applyOp
  cases hrun : opRun today op s with
  | error e => exact Or.inl ⟨b, hb, rfl⟩
  | ok s2 =>
    cases op with
    | createCourt nm desc price stat? =>
      simp only [opRun] at hrun
      cases hc : sp_create_court s nm desc price stat? with
      | error e => rw [hc] at hrun; cases hrun
      | ok r =>
        rw [hc] at hrun
        injection hrun with h2
        subst h2
        exact Or.inl ⟨b, by rw [sp_create_court_bookings hc]; exact hb, rfl⟩
    | updateCourt cid nm? desc? price? stat? =>
      simp only [opRun] at hrun
      exact Or.inl ⟨b, by rw [sp_update_court_bookings hrun]; exact hb, rfl⟩
    | deleteCourt cid =>
      simp only [opRun] at hrun
      obtain ⟨hshape, hall⟩ := sp_delete_court_bookings hrun
      by_cases hcid : b.court_id = cid
      · subst hcid
        exact Or.inr ⟨rfl, hall b hb rfl⟩
      · refine Or.inl ⟨b, ?_, rfl⟩
        rw [hshape, List.mem_filter]
        exact ⟨hb, by simp [hcid]⟩
    | createSlot st en nm stat? =>
      simp only [opRun] at hrun
      cases hc : sp_create_time_slot s st en nm stat? with
      | error e => rw [hc] at hrun; cases hrun
      | ok r =>
        rw [hc] at hrun
        injection hrun with h2
        subst h2
        exact Or.inl ⟨b, by rw [sp_create_time_slot_bookings hc]; exact hb, rfl⟩
    | updateSlot sid st? en? nm? stat? =>
      simp only [opRun] at hrun
      exact Or.inl ⟨b, by rw [sp_update_time_slot_bookings hrun]; exact hb, rfl⟩
    | deleteSlot sid =>
      simp only [opRun] at hrun
      exact Or.inl ⟨b, by rw [sp_delete_time_slot_bookings hrun]; exact hb, rfl⟩
    | createBooking pc ps d nm ph pay nt adm =>
      simp only [opRun] at hrun
      cases hc : sp_create_booking today s pc ps d nm ph pay nt adm with
      | error e => rw [hc] at hrun; cases hrun
      | ok r =>
        rw [hc] at hrun
        injection hrun with h2
        subst h2
        obtain ⟨nb, hshape⟩ := sp_create_booking_bookings hc
        exact Or.inl ⟨b, by rw [hshape]; exact List.mem_append_left _ hb, rfl⟩
    | updateBookingStatus bid pay? book? =>
      simp only [opRun] at hrun
      rw [sp_update_booking_status_bookings hrun]
      refine Or.inl ⟨_, List.mem_map_of_mem _ hb, ?_⟩
      by_cases hid : b.booking_id = bid <;> simp [hid, applyStatusRow]
    | updateBookingDetails bid nm? ph? nt? =>
      simp only [opRun] at hrun
      obtain ⟨f, hf, hshape⟩ := sp_update_booking_details_bookings hrun
      rw [hshape]
      exact Or.inl ⟨f b, List.mem_map_of_mem f hb, hf b⟩
    | cancelBooking bid =>
      simp only [opRun] at hrun
      rw [sp_cancel_booking_bookings hrun]
      refine Or.inl ⟨_, List.mem_map_of_mem _ hb, ?_⟩
      by_cases hid : b.booking_id = bid <;> simp [hid]

/-- C5 witness: the amended theorem applied to the concrete cancelled
booking of `c5State` under the court deletion. -/
theorem c5_witness :
    (⟨1, 1, 1, 5, "Alice", none, 100, PaymentStatus.unpaid,
       BookingStatus.cancelled, none, 1⟩ : Booking) ∈ c5State.bookings ∧
    ((∃ b2 ∈ (applyOp 5 (Op.deleteCourt 1) c5State).bookings,
        b2.booking_id = (1 : Nat)) ∨
     (Op.deleteCourt 1 = Op.deleteCourt 1 ∧
      BookingStatus.cancelled = BookingStatus.cancelled)) := by
  have hb : (⟨1, 1, 1, 5, "Alice", none, 100, PaymentStatus.unpaid,
      BookingStatus.cancelled, none, 1⟩ : Booking) ∈ c5State.bookings := by decide
  refine ⟨hb, ?_⟩
  have := c5_bookings_removed_only_by_court_cascade 5 (Op.deleteCourt 1)
    c5State _ hb
  rcases this with h | h
  · exact Or.inl h
  · exact Or.inr ⟨rfl, rfl⟩

/-- Reachable state with one cancelled booking (id 1): book then cancel. -/
def c1State : DBState :=
  runTrace initState
    [(5, Op.createCourt "C1" none 100 (some CourtStatus.active)),
     (5, Op.createSlot 480 600 "S1" (some SlotStatus.active)),
     (5, Op.createBooking 1 1 5 "Alice" none PaymentStatus.unpaid none 1),
     (5, Op.cancelBooking 1)]

/-- C1 counterexample: on the cancelled booking 1 of `c1State`, the
`updateStatus` call that supplies only a payment status SUCCEEDS and
changes the stored payment status — the `AFTER UPDATE` trigger only
signals when `booking_status` itself would leave `cancelled` — refuting
"every updateStatus call attempting to change any status fails with
TerminalState and leaves the reservation unchanged". -/
theorem c1_counterexample :
    Reachable c1State ∧
    (∃ b ∈ c1State.bookings, b.booking_id = 1 ∧
      b.booking_status = BookingStatus.cancelled ∧
      b.payment_status = PaymentStatus.unpaid) ∧
    exceptOk (sp_update_booking_status c1State 1
      (some PaymentStatus.paid) none) = true ∧
    (applyOp 5 (Op.updateBookingStatus 1 (some PaymentStatus.paid) none)
        c1State).bookings ≠ c1State.bookings ∧
    (∃ b ∈ (applyOp 5 (Op.updateBookingStatus 1 (some PaymentStatus.paid) none)
        c1State).bookings, b.booking_id = 1 ∧
      b.booking_status = BookingStatus.cancelled ∧
      b.payment_status = PaymentStatus.paid) := by
  refine ⟨⟨_, by decide, rfl⟩, ?_, ?_, ?_, ?_⟩ <;> decide

lemma booking_id_ne_symm (a b : Booking) :
    decide (a.booking_id ≠ b.booking_id) = decide (b.booking_id ≠ a.booking_id) := by
  by_cases h : a.booking_id = b.booking_id <;> simp [h, eq_comm]

/-- C1 (amended): on a reservation whose bookingStatus is cancelled,
`updateStatus` fails with TerminalState exactly when it supplies a
bookingStatus other than cancelled; a call that re-sets cancelled or
supplies only a paymentStatus succeeds (the payment status may change),
and in every case the bookingStatus itself remains cancelled — the
cancelled *booking* status is irreversible, but the reservation is not
immutable. -/
theorem c1_updateStatus_cancelled (s : DBState) (bid : Nat)
    (pay? : Option PaymentStatus) (book? : Option BookingStatus) (b : Booking)
    (hpk : bookingIdsUnique s) (hb : b ∈ s.bookings) (hid : b.booking_id = bid)
    (hc : b.booking_status = BookingStatus.cancelled) :
    ((∃ v, book? = some v ∧ v ≠ BookingStatus.cancelled) →
       sp_update_booking_status s bid pay? book? = .error .terminalState) ∧
    ((∀ v, book? = some v → v = BookingStatus.cancelled) →
       ∃ s2, sp_update_booking_status s bid pay? book? = .ok s2 ∧
         ∀ b2 ∈ s2.bookings, b2.booking_id = bid →
           b2.booking_status = BookingStatus.cancelled) := by
  have hex : s.bookings.any (fun x => decide (x.booking_id = bid)) = true :=
    List.any_eq_true.mpr ⟨b, hb, by simp [hid]⟩
  have huniq : ∀ x ∈ s.bookings, x.booking_id = bid → x = b := by
    intro x hx hxid
    rcases pairwiseB_rel_or_eq booking_id_ne_symm hpk hx hb with hr | he
    · rw [hxid, hid] at hr
      simp at hr
    · exact he
  constructor
  · rintro ⟨v, rfl, hvne⟩
    have hany2 : s.bookings.any (fun x =>
        decide (x.booking_id = bid) &&
        decide (x.booking_status = BookingStatus.cancelled) &&
        decide ((some v).getD x.booking_status ≠ BookingStatus.cancelled)) = true :=
      List.any_eq_true.mpr ⟨b, hb, by simp [hid, hc, hvne]⟩
    unfold sp_update_booking_status
    rw [hex, hany2]
    simp
  · intro hall
    have hany2 : s.bookings.any (fun x =>
        decide (x.booking_id = bid) &&
        decide (x.booking_status = BookingStatus.cancelled) &&
        decide (book?.getD x.booking_status ≠ BookingStatus.cancelled)) = false := by
      rw [Bool.eq_false_iff]
      intro hsome
      obtain ⟨x, hx, hxcond⟩ := List.any_eq_true.mp hsome
      simp only [Bool.and_eq_true, decide_eq_true_eq] at hxcond
      obtain ⟨⟨hxid, hxcan⟩, hneq⟩ := hxcond
      have hxb : x = b := huniq x hx hxid
      subst hxb
      cases hbq : book? with
      | none => rw [hbq] at hneq; exact hneq (by simpa using hxcan)
      | some v => rw [hbq] at hneq; exact hneq (by simpa using hall v hbq)
    have heq : sp_update_booking_status s bid pay? book? =
        .ok { s with bookings := s.bookings.map (fun x =>
          if x.booking_id = bid then applyStatusRow pay? book? x else x) } := by
      unfold sp_update_booking_status
      rw [hex, hany2]
      simp
    refine ⟨_, heq, ?_⟩
    intro b2 hb2 hb2id
    obtain ⟨b0, hb0, rfl⟩ := List.mem_map.mp hb2
    by_cases h0 : b0.booking_id = bid
    · have hb0b : b0 = b := huniq b0 hb0 h0
      subst hb0b
      simp only [h0, if_true, applyStatusRow]
      cases hbq : book? with
      | none => simpa using hc
      | some v => simpa using hall v hbq
    · simp [h0] at hb2id

/-- C1 witness: the amended theorem applied at `c1State`, once with
`bookingStatus = confirmed` (TerminalState) and once with
`bookingStatus = cancelled` (successful no-op on the status). -/
theorem c1_witness :
    bookingIdsUnique c1State ∧
    sp_update_booking_status c1State 1 none (some BookingStatus.confirmed) =
      .error .terminalState ∧
    (∃ s2, sp_update_booking_status c1State 1 none
        (some BookingStatus.cancelled) = .ok s2 ∧
      ∀ b2 ∈ s2.bookings, b2.booking_id = 1 →
        b2.booking_status = BookingStatus.cancelled) := by
  have hpk : bookingIdsUnique c1State := by unfold bookingIdsUnique; decide
  have hb : (⟨1, 1, 1, 5, "Alice", none, 100, PaymentStatus.unpaid,
      BookingStatus.cancelled, none, 1⟩ : Booking) ∈ c1State.bookings := by decide
  refine ⟨hpk, ?_, ?_⟩
  · exact (c1_updateStatus_cancelled c1State 1 none
      (some BookingStatus.confirmed) _ hpk hb rfl rfl).1
      ⟨BookingStatus.confirmed, rfl, by decide⟩
  · exact (c1_updateStatus_cancelled c1State 1 none
      (some BookingStatus.cancelled) _ hpk hb rfl rfl).2
      (fun v hv => by injection hv with h2; exact h2.symm)

lemma booking_triple_symm (a b : Booking) :
    (!(decide (a.court_id = b.court_id) && decide (a.slot_id = b.slot_id) &&
       decide (a.booking_date = b.booking_date))) =
    (!(decide (b.court_id = a.court_id) && decide (b.slot_id = a.slot_id) &&
       decide (b.booking_date = a.booking_date))) := by
  by_cases h1 : a.court_id = b.court_id <;>
  by_cases h2 : a.slot_id = b.slot_id <;>
  by_cases h3 : a.booking_date = b.booking_date <;>
  simp [h1, h2, h3, eq_comm]

/-- C2: a cancelled reservation for a triple makes the Availability
Engine report the window free — `is_slot_available` is true and the
listing annotates that window `true` — yet every `create` for the exact
same triple fails: even when all validations pass, the storage-layer
`unique_booking` key counts the cancelled row, so the insert is
rejected. The cancelled reservation permanently blocks re-booking. -/
theorem c2_cancelled_blocks_rebooking (s : DBState) (pc ps d : Nat) (b : Booking)
    (hkey : bookingKeyUnique s) (hb : b ∈ s.bookings)
    (hbc : b.court_id = pc) (hbs : b.slot_id = ps) (hbd : b.booking_date = d)
    (hcan : b.booking_status = BookingStatus.cancelled) :
    is_slot_available s pc ps d = true ∧
    (∀ w ava, (w, ava) ∈ sp_get_available_time_slots s pc d →
       w.slot_id = ps → ava = true) ∧
    (∀ today nm ph pay nt adm,
       exceptOk (sp_create_booking today s pc ps d nm ph pay nt adm) = false) := by
  have hfilter : s.bookings.filter (fun x =>
      decide (x.court_id = pc) && decide (x.slot_id = ps) &&
      decide (x.booking_date = d) &&
      decide (x.booking_status ≠ BookingStatus.cancelled)) = [] := by
    rw [List.filter_eq_nil_iff]
    intro x hx hcond
    simp only [Bool.and_eq_true, decide_eq_true_eq] at hcond
    obtain ⟨⟨⟨hxc, hxs⟩, hxd⟩, hxst⟩ := hcond
    rcases pairwiseB_rel_or_eq booking_triple_symm hkey hx hb with hr | he
    · rw [hxc, ← hbc, hxs, ← hbs, hxd, ← hbd] at hr
      simp at hr
    · exact hxst (he ▸ hcan)
  have havail : is_slot_available s pc ps d = true := by
    unfold is_slot_available
    rw [hfilter]
    rfl
  refine ⟨havail, ?_, ?_⟩
  · intro w ava hmem hws
    have hmem2 := mem_isort.mp hmem
    obtain ⟨w0, hw0, heq⟩ := List.mem_map.mp hmem2
    injection heq with he1 he2
    subst he1
    rw [← he2, hws]
    exact havail
  · intro today nm ph pay nt adm
    have hany : s.bookings.any (fun x =>
        decide (x.court_id = pc) && decide (x.slot_id = ps) &&
        decide (x.booking_date = d)) = true :=
      List.any_eq_true.mpr ⟨b, hb, by simp [hbc, hbs, hbd]⟩
    unfold sp_create_booking
    dsimp only
    repeat' split
    all_goals rfl

/-- Reachable state with one cancelled booking on (court 1, slot 1,
date 5), used to instantiate C2. -/
def c2State : DBState :=
  runTrace initState
    [(5, Op.createCourt "C1" none 100 (some CourtStatus.active)),
     (5, Op.createSlot 480 600 "S1" (some SlotStatus.active)),
     (5, Op.createBooking 1 1 5 "Alice" none PaymentStatus.unpaid none 1),
     (5, Op.cancelBooking 1)]

/-- C2 witness: in `c2State` the cancelled booking's slot reads as
available, and a fresh `create` for the same triple fails. -/
theorem c2_witness :
    bookingKeyUnique c2State ∧
    is_slot_available c2State 1 1 5 = true ∧
    exceptOk (sp_create_booking 5 c2State 1 1 5 "Bob" none
      PaymentStatus.unpaid none 1) = false := by
  have hkey : bookingKeyUnique c2State := by unfold bookingKeyUnique; decide
  have hb : (⟨1, 1, 1, 5, "Alice", none, 100, PaymentStatus.unpaid,
      BookingStatus.cancelled, none, 1⟩ : Booking) ∈ c2State.bookings := by decide
  have h := c2_cancelled_blocks_rebooking c2State 1 1 5 _ hkey hb rfl rfl rfl rfl
  exact ⟨hkey, h.1, h.2.2 5 "Bob" none PaymentStatus.unpaid none 1⟩

/-- Reachable state with a confirmed booking on (court 1, slot 1,
date 5), created on day 5. -/
def c3State : DBState :=
  runTrace initState
    [(5, Op.createCourt "C1" none 100 (some CourtStatus.active)),
     (5, Op.createSlot 480 600 "S1" (some SlotStatus.active)),
     (5, Op.createBooking 1 1 5 "Alice" none PaymentStatus.unpaid none 1)]

/-- C3 counterexample: on day 6 the date 5 is in the past, yet `create`
for the already-booked triple fails with the slot-taken error, not
PastDateRejected — the availability (uniqueness fast-path) check runs
BEFORE the trigger's date validation, refuting "validating the date is
step 1 ... before the ... uniqueness checks are consulted". -/
theorem c3_counterexample :
    Reachable c3State ∧
    (5 : Nat) < 6 ∧
    sp_create_booking 6 c3State 1 1 5 "Bob" none PaymentStatus.unpaid none 1 =
      .error .slotTaken ∧
    SqlErr.slotTaken ≠ SqlErr.pastDate := by
  exact ⟨⟨_, by decide, rfl⟩, by decide, rfl, by decide⟩

/-- C3 (amended): every `create` whose date is strictly before the
current date fails and inserts nothing, but date validation is not step
1: the availability fast-path runs first, so the call fails with
PastDateRejected exactly when the triple reads as available, and with
SlotTaken otherwise. (The remaining trigger checks — resource status,
window status, customer name — do come after the date check.) -/
theorem c3_past_date_create (today : Nat) (s : DBState) (pc ps d : Nat)
    (nm : String) (ph : Option String) (pay : PaymentStatus)
    (nt : Option String) (adm : Nat) (h : d < today) :
    sp_create_booking today s pc ps d nm ph pay nt adm =
      .error (if is_slot_available s pc ps d = true then SqlErr.pastDate
              else SqlErr.slotTaken) := by
  unfold sp_create_booking
  cases ha : is_slot_available s pc ps d <;> simp [ha, h]

/-- C3 witness: the amended theorem applied on the fresh database with
date 0 against day 1. -/
theorem c3_witness :
    (0 : Nat) < 1 ∧
    sp_create_booking 1 initState 1 1 0 "Bob" none PaymentStatus.unpaid none 1 =
      .error (if is_slot_available initState 1 1 0 = true then SqlErr.pastDate
              else SqlErr.slotTaken) :=
  ⟨by decide, c3_past_date_create 1 initState 1 1 0 "Bob" none
    PaymentStatus.unpaid none 1 (by decide)⟩

/-- Reachable state with two overlapping ACTIVE windows: slot 1
(480,600) was created inactive (the creation-time overlap check scans
only active slots), slot 2 (540,660) created active, then slot 1 was
activated by a status-only update, which performs no overlap check. -/
def c4State : DBState :=
  runTrace initState
    [(5, Op.createSlot 480 600 "A" (some SlotStatus.inactive)),
     (5, Op.createSlot 540 660 "B" (some SlotStatus.active)),
     (5, Op.updateSlot 1 none none none (some SlotStatus.active))]

/-- C4 counterexample: the consequence "no two active windows ever
overlap" fails — `c4State` is reachable and holds two distinct active
windows satisfying the half-open overlap test. -/
theorem c4_counterexample :
    Reachable c4State ∧
    (∃ w1 ∈ c4State.time_slots, ∃ w2 ∈ c4State.time_slots,
      w1.slot_id ≠ w2.slot_id ∧ w1.status = SlotStatus.active ∧
      w2.status = SlotStatus.active ∧ w1.start_time < w2.end_time ∧
      w1.end_time > w2.start_time) := by
  exact ⟨⟨_, by decide, rfl⟩, by decide⟩

/-- C4 (amended): assuming start < end for the new window and for every
stored active window, the implementation's three-case test is pointwise
equivalent to the half-open overlap test, and `create` fails with
OverlapConflict iff some active window half-open-overlaps the new one.
However, the consequence that no two active windows ever overlap does
NOT hold: a status-only update can activate a window without any
overlap check (see the counterexample). -/
theorem c4_overlap_test_equiv (s : DBState) (st en : Nat) (nm : String)
    (stat? : Option SlotStatus) (hlt : st < en)
    (hall : ∀ w ∈ s.time_slots, w.status = SlotStatus.active →
      w.start_time < w.end_time) :
    (∀ w ∈ s.time_slots, w.status = SlotStatus.active →
      (overlapTest st en w = true ↔
        (st < w.end_time ∧ en > w.start_time))) ∧
    (sp_create_time_slot s st en nm stat? = .error .slotOverlap ↔
      ∃ w ∈ s.time_slots, w.status = SlotStatus.active ∧
        st < w.end_time ∧ en > w.start_time) := by
  have hpt : ∀ w ∈ s.time_slots, w.status = SlotStatus.active →
      (overlapTest st en w = true ↔ (st < w.end_time ∧ en > w.start_time)) := by
    intro w hw hact
    have h2 := hall w hw hact
    simp only [overlapTest, Bool.or_eq_true, Bool.and_eq_true, decide_eq_true_eq]
    omega
  refine ⟨hpt, ?_⟩
  have hiff : (s.time_slots.any (fun w =>
      decide (w.status = SlotStatus.active) && overlapTest st en w) = true) ↔
      ∃ w ∈ s.time_slots, w.status = SlotStatus.active ∧
        st < w.end_time ∧ en > w.start_time := by
    rw [List.any_eq_true]
    constructor
    · rintro ⟨w, hw, hcond⟩
      rw [Bool.and_eq_true, decide_eq_true_eq] at hcond
      exact ⟨w, hw, hcond.1, (hpt w hw hcond.1).mp hcond.2⟩
    · rintro ⟨w, hw, hact, hov⟩
      refine ⟨w, hw, ?_⟩
      rw [Bool.and_eq_true, decide_eq_true_eq]
      exact ⟨hact, (hpt w hw hact).mpr hov⟩
  rw [← hiff]
  cases hany : s.time_slots.any (fun w =>
      decide (w.status = SlotStatus.active) && overlapTest st en w) with
  | true =>
    unfold sp_create_time_slot
    rw [hany]
    simp
  | false =>
    unfold sp_create_time_slot
    rw [hany]
    have hge : ¬ st ≥ en := by omega
    simp only [Bool.false_eq_true, if_false, hge]
    split <;> simp

/-- One active window (480,600) to instantiate the C4 equivalence. -/
def c4WState : DBState :=
  { admins := [1, 2], courts := [],
    time_slots := [{ slot_id := 1, start_time := 480, end_time := 600,
                     slot_name := "A", status := SlotStatus.active }],
    bookings := [], next_court_id := 1, next_slot_id := 2, next_booking_id := 1 }

/-- C4 witness: the amended theorem applied to creating (540,660)
against the active window (480,600). -/
theorem c4_witness :
    (540 : Nat) < 660 ∧
    ((∀ w ∈ c4WState.time_slots, w.status = SlotStatus.active →
        (overlapTest 540 660 w = true ↔
          (540 < w.end_time ∧ 660 > w.start_time))) ∧
     (sp_create_time_slot c4WState 540 660 "B" none = .error .slotOverlap ↔
        ∃ w ∈ c4WState.time_slots, w.status = SlotStatus.active ∧
          540 < w.end_time ∧ 660 > w.start_time)) :=
  ⟨by decide, c4_overlap_test_equiv c4WState 540 660 "B" none (by decide)
    (by decide)⟩

lemma find?_map_of_pred_pres (f : α → α) (p : α → Bool)
    (hpf : ∀ x, p (f x) = p x) {l : List α} {w : α} (hw : l.find? p = some w) :
    (l.map f).find? p = some (f w) := by
  induction l with
  | nil => simp at hw
  | cons a t ih =>
    by_cases hpa : p a = true
    · rw [List.find?_cons_of_pos _ hpa] at hw
      injection hw with h1
      subst h1
      rw [List.map_cons, List.find?_cons_of_pos _ (by rw [hpf]; exact hpa)]
    · rw [List.find?_cons_of_neg _ hpa] at hw
      rw [List.map_cons, List.find?_cons_of_neg _ (by rw [hpf]; exact hpa ∘ id)]
      exact ih hw

/-- One active window and no bookings: the minimal state refuting C6. -/
def c6State : DBState :=
  { admins := [1, 2], courts := [],
    time_slots := [{ slot_id := 1, start_time := 480, end_time := 600,
                     slot_name := "A", status := SlotStatus.active }],
    bookings := [], next_court_id := 1, next_slot_id := 2, next_booking_id := 1 }

/-- C6 counterexample: updating the existing, unblocked window 1 with
ONLY a new start time (540) reports success but leaves the start time
at 480 — the single supplied time field is silently ignored, refuting
"supplying only start (or only end) still updates that one time field". -/
theorem c6_counterexample :
    exceptOk (sp_update_time_slot 5 c6State 1 (some 540) none none none) = true ∧
    (applyOp 5 (Op.updateSlot 1 (some 540) none none none) c6State).time_slots =
      c6State.time_slots ∧
    (∃ w ∈ (applyOp 5 (Op.updateSlot 1 (some 540) none none none)
        c6State).time_slots, w.slot_id = 1 ∧ w.start_time = 480) := by
  exact ⟨rfl, rfl, by decide⟩

/-- C6 (amended): for an `update` call on an existing window with no
future non-cancelled booking, supplied name and status fields are
applied and unsupplied fields retain their prior values, but the time
fields are applied only when BOTH start and end are supplied (and pass
the ordering/overlap checks); when at most one time field is supplied,
the update takes the name/status-only branch, which never touches
start or end — a single supplied time field is silently ignored. -/
theorem c6_update_partial_fields (today : Nat) (s : DBState) (sid : Nat)
    (st? en? : Option Nat) (nm? : Option String) (stat? : Option SlotStatus)
    (w : TimeSlot) (hw : findSlot s sid = some w)
    (hnb : futureActiveBookingCount today s sid = 0) :
    (¬(st?.isSome = true ∧ en?.isSome = true) →
       sp_update_time_slot today s sid st? en? nm? stat? =
         .ok { s with time_slots :=
           s.time_slots.map (updateSlotRowNameStatus sid nm? stat?) }) ∧
    (∀ a b, st? = some a → en? = some b → a < b →
       (s.time_slots.any (fun w2 =>
          decide (w2.slot_id ≠ sid) && decide (w2.status = SlotStatus.active) &&
          overlapTest a b w2) = false) →
       (s.time_slots.any (fun w2 =>
          decide (w2.slot_id ≠ sid) && decide (w2.start_time = a) &&
          decide (w2.end_time = b)) = false) →
       sp_update_time_slot today s sid st? en? nm? stat? =
         .ok { s with time_slots :=
           s.time_slots.map (updateSlotRowFull sid st? en? nm? stat?) }) ∧
    (∀ x, (updateSlotRowNameStatus sid nm? stat? x).start_time = x.start_time ∧
       (updateSlotRowNameStatus sid nm? stat? x).end_time = x.end_time) ∧
    (updateSlotRowFull sid st? en? nm? stat? w =
      { w with start_time := st?.getD w.start_time,
               end_time := en?.getD w.end_time,
               slot_name := nm?.getD w.slot_name,
               status := stat?.getD w.status }) ∧
    (updateSlotRowNameStatus sid nm? stat? w =
      { w with slot_name := nm?.getD w.slot_name,
               status := stat?.getD w.status }) := by
  have hw2 : s.time_slots.find? (fun x => decide (x.slot_id = sid)) = some w := hw
  have hpw := List.find?_some hw2
  have hwid : w.slot_id = sid := by simpa using hpw
  have hex : s.time_slots.any (fun x => decide (x.slot_id = sid)) = true :=
    List.any_eq_true.mpr ⟨w, List.mem_of_find?_eq_some hw2, hpw⟩
  refine ⟨?_, ?_, ?_, ?_, ?_⟩
  · intro htwo
    unfold sp_update_time_slot
    rw [hex, hnb]
    rcases st? with _ | a <;> rcases en? with _ | b
    · simp
    · simp
    · simp
    · exact absurd ⟨rfl, rfl⟩ htwo
  · intro a b hsa hsb hab hov hdup
    subst hsa
    subst hsb
    unfold sp_update_time_slot
    rw [hex, hnb]
    dsimp only
    rw [hov, hdup]
    have hge : ¬ a ≥ b := by omega
    simp [hge]
  · intro x
    unfold updateSlotRowNameStatus
    by_cases hx : x.slot_id = sid <;> simp [hx]
  · unfold updateSlotRowFull
    rw [if_pos hwid]
  · unfold updateSlotRowNameStatus
    rw [if_pos hwid]

/-- C6 witness: the amended theorem at `c6State`, with the start-only
call taking the name/status branch and a full (540,700) update taking
the time branch. -/
theorem c6_witness :
    sp_update_time_slot 5 c6State 1 (some 540) none none none =
      .ok { c6State with time_slots :=
        c6State.time_slots.map (updateSlotRowNameStatus 1 none none) } ∧
    sp_update_time_slot 5 c6State 1 (some 540) (some 700) none none =
      .ok { c6State with time_slots :=
        c6State.time_slots.map (updateSlotRowFull 1 (some 540) (some 700) none none) } := by
  have hw : findSlot c6State 1 =
      some (⟨1, 480, 600, "A", SlotStatus.active⟩ : TimeSlot) := by decide
  refine ⟨?_, ?_⟩
  · exact (c6_update_partial_fields 5 c6State 1 (some 540) none none none _
      hw rfl).1 (by simp)
  · exact (c6_update_partial_fields 5 c6State 1 (some 540) (some 700) none none _
      hw rfl).2.1 540 700 rfl rfl (by decide) (by decide) (by decide)

/-- C7: the two deletion-blocking rules are distinct. Window deletion
fails with the in-use error iff ANY reservation (cancelled included)
references the window; resource deletion fails with its in-use error
iff some NON-cancelled reservation references the resource, and
succeeds once every referencing reservation is cancelled. -/
theorem c7_delete_blocking_rules (s : DBState) (sid cid : Nat)
    (w : TimeSlot) (c : Court)
    (hw : findSlot s sid = some w) (hc : findCourt s cid = some c) :
    (sp_delete_time_slot s sid = .error .slotInUse ↔
       ∃ b ∈ s.bookings, b.slot_id = sid) ∧
    (sp_delete_court s cid = .error .courtInUse ↔
       ∃ b ∈ s.bookings, b.court_id = cid ∧
         b.booking_status ≠ BookingStatus.cancelled) ∧
    ((∀ b ∈ s.bookings, b.court_id = cid →
        b.booking_status = BookingStatus.cancelled) →
       ∃ s2, sp_delete_court s cid = .ok s2) := by
  have hw2 : s.time_slots.find? (fun x => decide (x.slot_id = sid)) = some w := hw
  have hc2 : s.courts.find? (fun x => decide (x.court_id = cid)) = some c := hc
  have hpw := List.find?_some hw2
  have hpc := List.find?_some hc2
  have hexw : s.time_slots.any (fun x => decide (x.slot_id = sid)) = true :=
    List.any_eq_true.mpr ⟨w, List.mem_of_find?_eq_some hw2, hpw⟩
  have hexc : s.courts.any (fun x => decide (x.court_id = cid)) = true :=
    List.any_eq_true.mpr ⟨c, List.mem_of_find?_eq_some hc2, hpc⟩
  refine ⟨?_, ?_, ?_⟩
  · unfold sp_delete_time_slot
    rw [hexw]
    simp only [Bool.true_eq_false, if_false]
    constructor
    · intro heq
      by_cases hpos :
          (s.bookings.filter (fun b => decide (b.slot_id = sid))).length > 0
      · obtain ⟨x, hx⟩ := List.exists_mem_of_ne_nil _
          (List.length_pos.mp hpos)
        obtain ⟨hxb, hxs⟩ := List.mem_filter.mp hx
        exact ⟨x, hxb, by simpa using hxs⟩
      · rw [if_neg hpos] at heq
        cases heq
    · rintro ⟨b, hb, hbs⟩
      have hpos :
          (s.bookings.filter (fun b => decide (b.slot_id = sid))).length > 0 :=
        List.length_pos.mpr
          (List.ne_nil_of_mem (List.mem_filter.mpr ⟨hb, by simp [hbs]⟩))
      rw [if_pos hpos]
  · unfold sp_delete_court
    rw [hexc]
    simp only [Bool.true_eq_false, if_false]
    constructor
    · intro heq
      by_cases hpos : (s.bookings.filter (fun b =>
          decide (b.court_id = cid) &&
          decide (b.booking_status ≠ BookingStatus.cancelled))).length > 0
      · obtain ⟨x, hx⟩ := List.exists_mem_of_ne_nil _
          (List.length_pos.mp hpos)
        obtain ⟨hxb, hxs⟩ := List.mem_filter.mp hx
        rw [Bool.and_eq_true, decide_eq_true_eq, decide_eq_true_eq] at hxs
        exact ⟨x, hxb, hxs⟩
      · rw [if_neg hpos] at heq
        cases heq
    · rintro ⟨b, hb, hbc, hbs⟩
      have hpos : (s.bookings.filter (fun b =>
          decide (b.court_id = cid) &&
          decide (b.booking_status ≠ BookingStatus.cancelled))).length > 0 :=
        List.length_pos.mpr
          (List.ne_nil_of_mem (List.mem_filter.mpr ⟨hb, by simp [hbc, hbs]⟩))
      rw [if_pos hpos]
  · intro hall
    have hnil : s.bookings.filter (fun b =>
        decide (b.court_id = cid) &&
        decide (b.booking_status ≠ BookingStatus.cancelled)) = [] := by
      rw [List.filter_eq_nil_iff]
      intro x hx hcond
      rw [Bool.and_eq_true, decide_eq_true_eq, decide_eq_true_eq] at hcond
      exact hcond.2 (hall x hx hcond.1)
    unfold sp_delete_court
    rw [hexc, hnil]
    simp

/-- One cancelled booking referencing court 1 and slot 1. -/
def c7State : DBState :=
  { admins := [1, 2],
    courts := [{ court_id := 1, court_name := "C1", description := none,
                 price_per_session := 100, status := CourtStatus.active }],
    time_slots := [{ slot_id := 1, start_time := 480, end_time := 600,
                     slot_name := "S1", status := SlotStatus.active }],
    bookings := [{ booking_id := 1, court_id := 1, slot_id := 1,
                   booking_date := 5, customer_name := "Alice",
                   customer_phone := none, total_amount := 100,
                   payment_status := PaymentStatus.unpaid,
                   booking_status := BookingStatus.cancelled, notes := none,
                   created_by := 1 }],
    next_court_id := 2, next_slot_id := 2, next_booking_id := 2 }

/-- C7 witness: in `c7State` (one cancelled booking) window deletion is
blocked while court deletion succeeds. -/
theorem c7_witness :
    (sp_delete_time_slot c7State 1 = .error .slotInUse ↔
       ∃ b ∈ c7State.bookings, b.slot_id = 1) ∧
    (sp_delete_court c7State 1 = .error .courtInUse ↔
       ∃ b ∈ c7State.bookings, b.court_id = 1 ∧
         b.booking_status ≠ BookingStatus.cancelled) ∧
    (∃ s2, sp_delete_court c7State 1 = .ok s2) := by
  have h := c7_delete_blocking_rules c7State 1 1
    (⟨1, 480, 600, "S1", SlotStatus.active⟩ : TimeSlot)
    (⟨1, "C1", none, 100, CourtStatus.active⟩ : Court) (by decide) (by decide)
  exact ⟨h.1, h.2.1, h.2.2 (by decide)⟩

/-- C8: a successful `create` (the ledger's create never accepts an
amount — it is always "omitted") stores total_amount equal to the
referenced resource's price at creation time, and `sp_update_court`
never touches any stored booking, so later price changes cannot alter
existing reservations' amounts. -/
theorem c8_default_pricing_frozen :
    (∀ today (s : DBState) pc ps d nm ph pay nt adm bid s2,
       sp_create_booking today s pc ps d nm ph pay nt adm = .ok (bid, s2) →
       ∃ c, findCourt s pc = some c ∧ c.status = CourtStatus.active ∧
         ∃ b ∈ s2.bookings, b.booking_id = bid ∧
           b.total_amount = c.price_per_session) ∧
    (∀ (s : DBState) cid nm? desc? price? stat? s2,
       sp_update_court s cid nm? desc? price? stat? = .ok s2 →
       s2.bookings = s.bookings) := by
  constructor
  · intro today s pc ps d nm ph pay nt adm bid s2 h
    unfold sp_create_booking at h
    dsimp only at h
    repeat' split at h
    all_goals try cases h
    rename_i hav hdate hcourtF hslotF hname xscrut amt heq hfkc hfks hfka hdup
    have hfkc2 : s.courts.any (fun z => decide (z.court_id = pc)) = true := by
      revert hfkc
      cases s.courts.any (fun z => decide (z.court_id = pc)) <;> simp
    obtain ⟨x, hxmem, hxp⟩ := List.any_eq_true.mp hfkc2
    cases hfc : findCourt s pc with
    | none =>
      exfalso
      have hsome : (s.courts.find? (fun z => decide (z.court_id = pc))).isSome :=
        List.find?_isSome.mpr ⟨x, hxmem, hxp⟩
      have hfc2 : s.courts.find? (fun z => decide (z.court_id = pc)) = none := hfc
      rw [hfc2] at hsome
      cases hsome
    | some c =>
      have hfc2 : s.courts.find? (fun z => decide (z.court_id = pc)) = some c := hfc
      have hpc := List.find?_some hfc2
      have hcid : c.court_id = pc := by simpa using hpc
      have hcact : c.status = CourtStatus.active := by
        rw [hfc] at hcourtF
        by_contra hne
        exact hcourtF (by simpa using hne)
      have hamt : amt = c.price_per_session := by
        cases hfa : s.courts.find? (fun z =>
            decide (z.court_id = pc) && decide (z.status = CourtStatus.active)) with
        | none =>
          rw [hfa] at heq
          unfold triggerAmount at heq
          rw [if_pos rfl] at heq
          have hfc3 : findCourt s pc = some c := hfc
          rw [hfc3] at heq
          simpa using heq.symm
        | some c0 =>
          rw [hfa] at heq
          have hc0 : c0 = c := by
            have hstrong : s.courts.find? (fun z =>
                decide (z.court_id = pc) && decide (z.status = CourtStatus.active)) =
                some c :=
              find?_of_stronger
                (fun z hz => by
                  rw [Bool.and_eq_true] at hz
                  exact hz.1)
                hfc2 (by simp [hcid, hcact])
            rw [hstrong] at hfa
            injection hfa with h2
            exact h2.symm
          subst hc0
          unfold triggerAmount at heq
          by_cases hz : c0.price_per_session = 0
          · rw [if_pos hz] at heq
            have hfc3 : findCourt s pc = some c0 := hfc
            rw [hfc3] at heq
            have : c0.price_per_session = amt := by simpa using heq
            rw [← this, hz]
          · rw [if_neg hz] at heq
            injection heq with h2
            exact h2.symm
      refine ⟨c, rfl, hcact, ?_⟩
      refine ⟨_, List.mem_append.mpr (Or.inr (List.mem_singleton.mpr rfl)), rfl, ?_⟩
      exact hamt
  · intro s cid nm? desc? price? stat? s2 h
    exact sp_update_court_bookings h

/-- Active court (price 100) and active slot, no bookings. -/
def c8State : DBState :=
  { admins := [1, 2],
    courts := [{ court_id := 1, court_name := "C1", description := none,
                 price_per_session := 100, status := CourtStatus.active }],
    time_slots := [{ slot_id := 1, start_time := 480, end_time := 600,
                     slot_name := "S1", status := SlotStatus.active }],
    bookings := [], next_court_id := 2, next_slot_id := 2, next_booking_id := 1 }

def c8After : DBState :=
  applyOp 5 (Op.createBooking 1 1 5 "Alice" none PaymentStatus.unpaid none 1)
    c8State

def c8Upd : DBState :=
  applyOp 0 (Op.updateCourt 1 none none (some 999) none) c8State

/-- C8 witness: the theorem applied to a concrete successful create
(amount 100 = the price) and a concrete price update (bookings
untouched). -/
theorem c8_witness :
    (∃ c, findCourt c8State 1 = some c ∧ c.status = CourtStatus.active ∧
       ∃ b ∈ c8After.bookings, b.booking_id = 1 ∧
         b.total_amount = c.price_per_session) ∧
    c8Upd.bookings = c8State.bookings := by
  constructor
  · exact c8_default_pricing_frozen.1 5 c8State 1 1 5 "Alice" none
      PaymentStatus.unpaid none 1 1 c8After rfl
  · exact c8_default_pricing_frozen.2 c8State 1 none none (some 999) none
      c8Upd rfl

/-- Reachable state for C10: a booking made on slot 1 for day 5; on day
6 the slot is deactivated (allowed — the booking's date is now past),
leaving a non-cancelled booking on an inactive window. -/
def c10State : DBState :=
  runTrace initState
    [(5, Op.createCourt "C1" none 100 (some CourtStatus.active)),
     (5, Op.createSlot 480 600 "S1" (some SlotStatus.active)),
     (5, Op.createBooking 1 1 5 "Alice" none PaymentStatus.unpaid none 1),
     (6, Op.updateSlot 1 none none none (some SlotStatus.inactive))]

/-- C10: in the reachable `c10State`, `countAvailable` (0 active slots
minus 1 non-cancelled booking = -1) differs from the number of windows
`listAvailable` reports available (0), and is negative; the cause is
the non-cancelled booking referencing the deactivated window. -/
theorem c10_count_mismatch :
    Reachable c10State ∧
    get_available_slots_count c10State 1 5 ≠
      (((sp_get_available_time_slots c10State 1 5).filter
        (fun p => p.2)).length : Int) ∧
    get_available_slots_count c10State 1 5 < 0 ∧
    (∃ b ∈ c10State.bookings, b.booking_status ≠ BookingStatus.cancelled ∧
      ∃ w ∈ c10State.time_slots, w.slot_id = b.slot_id ∧
        w.status = SlotStatus.inactive) := by
  exact ⟨⟨_, by decide, rfl⟩, by decide, by decide, by decide⟩

/-- 51 bookings on distinct dates (101..151), all joinable. -/
def c9State : DBState :=
  { admins := [1],
    courts := [{ court_id := 1, court_name := "C1", description := none,
                 price_per_session := 100, status := CourtStatus.active }],
    time_slots := [{ slot_id := 1, start_time := 480, end_time := 600,
                     slot_name := "S1", status := SlotStatus.active }],
    bookings := (List.range 51).map (fun i =>
      { booking_id := i + 1, court_id := 1, slot_id := 1,
        booking_date := 101 + i, customer_name := "X", customer_phone := none,
        total_amount := 100, payment_status := PaymentStatus.unpaid,
        booking_status := BookingStatus.confirmed, notes := none,
        created_by := 1 }),
    next_court_id := 2, next_slot_id := 2, next_booking_id := 52 }

/-- C9 counterexample: with `limit`/`offset` omitted the controller
substitutes limit = 50 and offset = 0, so a history call over 51
matching reservations returns only 50 rows, not the full filtered
result set (which the bare procedure, passed NULLs, does return). -/
theorem c9_counterexample :
    (c9State.bookings.filter (historyFilter none none none)).length = 51 ∧
    (sp_get_booking_history c9State none none none none none).length = 51 ∧
    (getBookingHistory c9State none none none none none).length = 50 := by
  exact ⟨rfl, rfl, rfl⟩

lemma joinRow_fst {s : DBState} {a : Booking} {x : Booking × TimeSlot}
    (h : joinRow s a = some x) : x.1 = a := by
  unfold joinRow at h
  split at h
  · split at h
    · injection h with h1
      subst h1
      rfl
    · cases h
  · cases h

lemma histLE_total : ∀ a b, histLE a b = true ∨ histLE b a = true := by
  intro a b
  unfold histLE
  simp only [Bool.or_eq_true, Bool.and_eq_true, decide_eq_true_eq]
  omega

/-- C9 (amended): the stored procedure, called with NULL limit/offset,
returns exactly the joined reservations matching the filters, ordered
by date descending then window start ascending; but the API operation
substitutes limit = 50, offset = 0 when the caller omits them, so an
omitted-pagination history call returns only the first 50 rows of that
ordered result, not the full filtered set. -/
theorem c9_history_pagination (s : DBState) (cid? fromD? toD? : Option Nat) :
    (∀ b : Booking,
       (∃ ts, (b, ts) ∈ sp_get_booking_history s cid? fromD? toD? none none) ↔
       (b ∈ s.bookings ∧ historyFilter cid? fromD? toD? b = true ∧
        (joinRow s b).isSome = true)) ∧
    sortedB histLE (sp_get_booking_history s cid? fromD? toD? none none) = true ∧
    getBookingHistory s cid? fromD? toD? none none =
      (sp_get_booking_history s cid? fromD? toD? none none).take 50 := by
  refine ⟨?_, ?_, ?_⟩
  · intro b
    unfold sp_get_booking_history
    dsimp only
    constructor
    · rintro ⟨ts, hts⟩
      have hts2 := mem_isort.mp hts
      obtain ⟨a, ha, hja⟩ := List.mem_filterMap.mp hts2
      obtain ⟨hamem, hafil⟩ := List.mem_filter.mp ha
      have hfst : b = a := by
        have := joinRow_fst hja
        simpa using this
      subst hfst
      exact ⟨hamem, hafil, by rw [hja]; rfl⟩
    · rintro ⟨hmem, hfil, hsome⟩
      obtain ⟨x, hx⟩ := Option.isSome_iff_exists.mp hsome
      obtain ⟨x1, x2⟩ := x
      have hx1 : x1 = b := joinRow_fst hx
      subst hx1
      refine ⟨x2, ?_⟩
      rw [mem_isort]
      exact List.mem_filterMap.mpr ⟨x1, List.mem_filter.mpr ⟨hmem, hfil⟩, hx⟩
  · unfold sp_get_booking_history
    dsimp only
    exact sortedB_isort histLE_total _
  · unfold getBookingHistory sp_get_booking_history
    dsimp only
    simp only [Option.getD_none]
    rw [List.drop_zero]
